import Mathlib

/-!
Shallow embedding of the auth/role slice of the portfolio repository:
the `AuthService` singleton (session/profile cache, sign-in/out,
user creation, role checks), the `useAuth` React hook (derived role
flags, sign-in/out wrappers), and the three route-guard components.

Remote provider calls are modelled as explicit environment values
(the response the provider would give) and an effect trace listing
every remote call that was issued, so that "performs no remote call"
claims are statable.  JavaScript exceptions from provider calls are
modelled as explicit `threw` constructors of the environment result
types; the service methods catch them, so every embedded method is a
total function.
-/

/-- Identity-provider account record (`User` from the provider SDK);
only the fields this code reads are kept. -/
structure User where
  id : String
  email : Option String
deriving Repr, DecidableEq

/-- Provider session; the code only ever reads `session.user`. -/
structure Session where
  user : User
deriving Repr, DecidableEq

/-- `UserProfile` row (src/unnamed/part_009 lines 8-23).  `role` and
`status` are kept as strings, matching the JavaScript runtime values;
the `preferences` and `metadata` JSON records are omitted because no
modelled code path reads them. -/
structure UserProfile where
  id : String
  username : Option String
  full_name : Option String
  avatar_url : Option String
  role : String
  status : String
  email_verified : Bool
  last_login_at : Option String
  login_attempts : Nat
  locked_until : Option String
  created_at : String
  updated_at : String
deriving Repr, DecidableEq

/-- A JavaScript value a parsed system setting can hold after the
string-conversion step of `loadSystemSettings`. -/
inductive SettingValue where
  | bool (b : Bool)
  | num (n : Int)
  | str (s : String)
deriving Repr, DecidableEq

/-- `SystemSettings` (part_009 lines 25-31).  Fields hold the JS value
actually assigned, which the conversion step does not constrain to the
TypeScript-declared type. -/
structure SystemSettings where
  global_signup_enabled : SettingValue
  email_verification_required : SettingValue
  password_min_length : SettingValue
  max_login_attempts : SettingValue
  session_timeout_hours : SettingValue
deriving Repr, DecidableEq

/-- The mutable fields of the `AuthService` singleton
(part_009 lines 35-38). -/
structure AuthServiceState where
  currentUser : Option User
  currentProfile : Option UserProfile
  settings : Option SystemSettings
  initialized : Bool
deriving Repr, DecidableEq

/-- Field initial values of the `AuthService` class: all caches null,
not yet initialized. -/
def AuthService.initState : AuthServiceState :=
  { currentUser := none, currentProfile := none, settings := none,
    initialized := false }

/-- The `roleHierarchy` record of `hasRole` (part_009 lines 391-396)
together with the `|| 0` default applied on lookup (lines 398-399):
an unknown role name maps to level 0. -/
def roleHierarchy (role : String) : Nat :=
  if role = "super_admin" then 4
  else if role = "admin" then 3
  else if role = "editor" then 2
  else if role = "user" then 1
  else 0

/-- `AuthService.hasRole` (part_009 lines 386-402): false without a
cached profile or when its status is not active, otherwise compares
hierarchy levels of the cached role and the requested role. -/
def AuthService.hasRole (s : AuthServiceState) (role : String) : Bool :=
  match s.currentProfile with
  | none => false
  | some p =>
    if p.status ≠ "active" then false
    else
      let userLevel := roleHierarchy p.role
      let requiredLevel := roleHierarchy role
      decide (userLevel ≥ requiredLevel)

/-- `AuthService.isActive` (part_009 lines 404-406). -/
def AuthService.isActive (s : AuthServiceState) : Bool :=
  match s.currentProfile with
  | some p => p.status = "active"
  | none => false

/-- The three derived role flags the hook stores. -/
structure RoleFlags where
  isSuperAdmin : Bool
  isAdmin : Bool
  isEditor : Bool
deriving Repr, DecidableEq

/-- `updateRoles` of the `useAuth` hook (useAuth.ts lines 101-123),
as the pure function from the profile to the three flags it assigns. -/
def updateRoles (userProfile : Option UserProfile) : RoleFlags :=
  match userProfile with
  | none => { isSuperAdmin := false, isAdmin := false, isEditor := false }
  | some p =>
    if p.status ≠ "active" then
      { isSuperAdmin := false, isAdmin := false, isEditor := false }
    else
      { isSuperAdmin := decide (p.role = "super_admin")
        isAdmin := decide (p.role ∈ ["super_admin", "admin"])
        isEditor := decide (p.role ∈ ["super_admin", "admin", "editor"]) }

/-- What a route-guard component renders. -/
inductive GuardResult where
  | loadingView
  | redirect (target : String)
  | children
deriving Repr, DecidableEq

/-- `ProtectedRoute` (src/unnamed/part_000 lines 27-49) as a function of
the hook flags it reads; `isSuperAdmin` and `loading` are read but not
used in the branch logic. -/
def ProtectedRoute (initializing isAdmin isEditor : Bool) : GuardResult :=
  if initializing then .loadingView
  else if !isAdmin && !isEditor then .redirect "/admin/login"
  else .children

/-- `AdminOnlyRoute` (part_000 lines 52-70). -/
def AdminOnlyRoute (initializing isAdmin isSuperAdmin : Bool) : GuardResult :=
  if initializing then .loadingView
  else if !isAdmin && !isSuperAdmin then .redirect "/admin"
  else .children

/-- `SuperAdminOnlyRoute` (part_000 lines 73-91). -/
def SuperAdminOnlyRoute (initializing isSuperAdmin : Bool) : GuardResult :=
  if initializing then .loadingView
  else if !isSuperAdmin then .redirect "/admin"
  else .children

/-- Trace entry for each remote provider/database call the service
issues.  The constructors carry the request data the code sends. -/
inductive Effect where
  | getSession
  | getUser
  | fetchProfile (userId : String)
  | insertProfile (id : String) (role : String) (status : String)
  | fetchSettings
  | signInWithPassword (email : String)
  | logLoginAttempt (email : String) (success : Bool) (errorType : Option String)
  | updateLastLogin (userId : String)
  | signOutRemote
  | adminCreateUser (email : String)
  | upsertProfile (id : String) (full_name : String) (role : String) (status : String)
deriving Repr, DecidableEq

/-- Outcome of a `.single()` database query for one profile row:
a row, an error object with a code, or a rejected promise. -/
inductive DbSingleResult where
  | ok (row : UserProfile)
  | err (code : String) (message : String)
  | threw
deriving Repr, DecidableEq

/-- Provider responses consumed by `loadUserProfile` and, through it,
`createMissingProfile`. -/
structure LoadProfileEnv where
  fetchProfile : DbSingleResult
  getUserThrew : Bool
  insertResult : DbSingleResult
deriving Repr, DecidableEq

/-- `createMissingProfile` (part_009 lines 121-151): fetches the auth
user (result unused), inserts a default row (role user, status active),
and caches the returned row; every failure is caught and leaves the
cached profile untouched. -/
def AuthService.createMissingProfile (s : AuthServiceState) (userId : String)
    (env : LoadProfileEnv) : AuthServiceState × List Effect :=
  if env.getUserThrew then (s, [.getUser])
  else
    match env.insertResult with
    | .ok row => ({ s with currentProfile := some row },
        [.getUser, .insertProfile userId "user" "active"])
    | .err _ _ => (s, [.getUser, .insertProfile userId "user" "active"])
    | .threw => (s, [.getUser, .insertProfile userId "user" "active"])

/-- `loadUserProfile` (part_009 lines 86-116): selects the profile row;
on error code PGRST116 creates the missing profile, on any other error
or a thrown exception caches null. -/
def AuthService.loadUserProfile (s : AuthServiceState) (userId : String)
    (env : LoadProfileEnv) : AuthServiceState × List Effect :=
  match env.fetchProfile with
  | .ok row => ({ s with currentProfile := some row }, [.fetchProfile userId])
  | .err code _ =>
    if code = "PGRST116" then
      let r := AuthService.createMissingProfile s userId env
      (r.1, .fetchProfile userId :: r.2)
    else ({ s with currentProfile := none }, [.fetchProfile userId])
  | .threw => ({ s with currentProfile := none }, [.fetchProfile userId])

/-- Outcome of the `system_settings` select. -/
inductive SettingsFetchResult where
  | ok (rows : List (String × String))
  | err (message : String)
  | threw
deriving Repr, DecidableEq

/-- The string-to-JS-value conversion in `loadSystemSettings`
(part_009 lines 170-176).  JavaScript `Number(value)` is modelled on
integer literals via `String.toInt?`; no claim depends on the numeric
grammar. -/
def convertSettingValue (value : String) : SettingValue :=
  if value = "true" then .bool true
  else if value = "false" then .bool false
  else
    match value.toInt? with
    | some n => .num n
    | none => .str value

/-- The string-keyed settings object built by the `forEach` loop:
a later row with the same key overwrites an earlier one. -/
def settingLookup (rows : List (String × String)) (key : String) :
    Option SettingValue :=
  (rows.filterMap fun r =>
    if r.1 = key then some (convertSettingValue r.2) else none).getLast?

/-- `setDefaultSettings` (part_009 lines 194-202). -/
def AuthService.setDefaultSettings (s : AuthServiceState) : AuthServiceState :=
  let defaults : SystemSettings :=
    { global_signup_enabled := .bool true
      email_verification_required := .bool false
      password_min_length := .num 8
      max_login_attempts := .num 5
      session_timeout_hours := .num 24 }
  { s with settings := some defaults }

/-- `loadSystemSettings` (part_009 lines 156-192): reads all setting
rows, converts each value, then fills `settings` with the looked-up
values or the per-field `??` defaults; any error falls back to
`setDefaultSettings`. -/
def AuthService.loadSystemSettings (s : AuthServiceState)
    (env : SettingsFetchResult) : AuthServiceState × List Effect :=
  match env with
  | .ok rows =>
    let parsed : SystemSettings :=
      { global_signup_enabled :=
          (settingLookup rows "global_signup_enabled").getD (.bool true)
        email_verification_required :=
          (settingLookup rows "email_verification_required").getD (.bool false)
        password_min_length :=
          (settingLookup rows "password_min_length").getD (.num 8)
        max_login_attempts :=
          (settingLookup rows "max_login_attempts").getD (.num 5)
        session_timeout_hours :=
          (settingLookup rows "session_timeout_hours").getD (.num 24) }
    ({ s with settings := some parsed }, [.fetchSettings])
  | .err _ => (AuthService.setDefaultSettings s, [.fetchSettings])
  | .threw => (AuthService.setDefaultSettings s, [.fetchSettings])

/-- Outcome of `supabase.auth.getSession()`: a data/error pair (the
error member is only logged, never acted on) or a rejected promise. -/
inductive GetSessionResult where
  | ok (session : Option Session) (error : Option String)
  | threw
deriving Repr, DecidableEq

/-- Provider responses consumed by one `initialize()` run. -/
structure InitEnv where
  getSession : GetSessionResult
  loadProfile : LoadProfileEnv
  settings : SettingsFetchResult
deriving Repr, DecidableEq

/-- `initialize()` (part_009 lines 50-81), named `initService` here
because `initialize` is reserved in Lean.  Returns the new service
state and the trace of remote calls.  An already-initialized service
returns at once with an empty trace; a thrown `getSession` is caught
and still marks the service initialized. -/
def AuthService.initService (s : AuthServiceState) (env : InitEnv) :
    AuthServiceState × List Effect :=
  if s.initialized then (s, [])
  else
    match env.getSession with
    | .threw => ({ s with initialized := true }, [.getSession])
    | .ok sess _ =>
      let afterProfile :=
        match sess with
        | some session =>
          AuthService.loadUserProfile
            { s with currentUser := some session.user }
            session.user.id env.loadProfile
        | none => (s, [])
      let afterSettings :=
        AuthService.loadSystemSettings afterProfile.1 env.settings
      ({ afterSettings.1 with initialized := true },
        .getSession :: (afterProfile.2 ++ afterSettings.2))

/-- The `{ user, session, error }` triple `signIn` resolves with.
Errors are modelled by their message string. -/
structure SignInResult where
  user : Option User
  session : Option Session
  error : Option String
deriving Repr, DecidableEq

/-- Outcome of `supabase.auth.signInWithPassword`: a data/error pair
(error set means the `if (error)` branch) or a rejected promise. -/
inductive SignInProviderResult where
  | ok (user : Option User) (session : Option Session)
  | err (message : String)
  | threw (message : String)
deriving Repr, DecidableEq

/-- Provider responses consumed by one `signIn` run. -/
structure SignInEnv where
  provider : SignInProviderResult
  loadProfile : LoadProfileEnv
deriving Repr, DecidableEq

/-- `AuthService.signIn` (part_009 lines 207-239): on a provider error,
log the failed attempt and return the error with null user/session; on
success with a user, cache the user, reload the profile, record the
login; a thrown exception is caught and returned as the error.  The
cached state is only ever changed on the success-with-user path. -/
def AuthService.signIn (s : AuthServiceState) (email _password : String)
    (_rememberMe : Bool) (env : SignInEnv) :
    AuthServiceState × SignInResult × List Effect :=
  match env.provider with
  | .err msg =>
    (s, { user := none, session := none, error := some msg },
      [.signInWithPassword email, .logLoginAttempt email false (some msg)])
  | .threw msg =>
    (s, { user := none, session := none, error := some msg },
      [.signInWithPassword email])
  | .ok u sess =>
    match u with
    | some user =>
      let afterProfile :=
        AuthService.loadUserProfile { s with currentUser := some user }
          user.id env.loadProfile
      (afterProfile.1,
        { user := some user, session := sess, error := none },
        .signInWithPassword email :: afterProfile.2 ++
          [.updateLastLogin user.id, .logLoginAttempt email true none])
    | none =>
      (s, { user := none, session := sess, error := none },
        [.signInWithPassword email])

/-- Outcome of `supabase.auth.signOut()`. -/
inductive SignOutProviderResult where
  | ok (error : Option String)
  | threw (message : String)
deriving Repr, DecidableEq

/-- `AuthService.signOut` (part_009 lines 277-294): clears the cached
user and profile exactly when the provider reports no error; a thrown
exception is caught and returned as the error. -/
def AuthService.signOut (s : AuthServiceState) (pr : SignOutProviderResult) :
    AuthServiceState × Option String × List Effect :=
  match pr with
  | .ok none =>
    ({ s with currentUser := none, currentProfile := none }, none,
      [.signOutRemote])
  | .ok (some e) => (s, some e, [.signOutRemote])
  | .threw m => (s, some m, [.signOutRemote])

/-- The `{ user, error }` pair `createUser` and `signUp` resolve with. -/
structure CreateUserResult where
  user : Option User
  error : Option String
deriving Repr, DecidableEq

/-- Outcome of `supabase.auth.admin.createUser`. -/
inductive AdminCreateResult where
  | ok (user : Option User)
  | err (message : String)
  | threw (message : String)
deriving Repr, DecidableEq

/-- `AuthService.createUser` (part_009 lines 299-340): requires the
cached profile to pass `hasRole('admin')`, else the thrown permission
error is caught and returned with no remote call made; otherwise it
creates the provider user and upserts the profile row.  The cached
state is never changed. -/
def AuthService.createUser (s : AuthServiceState)
    (email _password fullName role : String) (env : AdminCreateResult) :
    AuthServiceState × CreateUserResult × List Effect :=
  if !AuthService.hasRole s "admin" then
    (s, { user := none, error := some "Permissions insuffisantes" }, [])
  else
    match env with
    | .err msg => (s, { user := none, error := some msg }, [.adminCreateUser email])
    | .threw msg => (s, { user := none, error := some msg }, [.adminCreateUser email])
    | .ok u =>
      match u with
      | some user =>
        (s, { user := some user, error := none },
          [.adminCreateUser email,
           .upsertProfile user.id fullName role "active"])
      | none =>
        (s, { user := none, error := none }, [.adminCreateUser email])

/-- The reactive state the `useAuth` hook keeps (useAuth.ts lines 7-14);
`loading` and `initializing` are omitted from the sign-in/out slice
because neither wrapper touches them. -/
structure HookState where
  authUser : Option User
  profile : Option UserProfile
  session : Option Session
  isAdmin : Bool
  isEditor : Bool
  isSuperAdmin : Bool
deriving Repr, DecidableEq

/-- Applies a `RoleFlags` value to the hook state, as the three
`setIsSuperAdmin` / `setIsAdmin` / `setIsEditor` calls do. -/
def HookState.withFlags (h : HookState) (f : RoleFlags) : HookState :=
  { h with
    isSuperAdmin := f.isSuperAdmin
    isAdmin := f.isAdmin
    isEditor := f.isEditor }

/-- The hook's `signIn` wrapper (useAuth.ts lines 125-140): delegates
to the service; only when the result carries a user and no error does
it copy the service's cached profile into hook state and recompute the
flags.  The service wrapper is total, so the catch branch is dead. -/
def useAuth.signIn (h : HookState) (s : AuthServiceState)
    (email password : String) (rememberMe : Bool) (env : SignInEnv) :
    HookState × AuthServiceState × SignInResult × List Effect :=
  let r := AuthService.signIn s email password rememberMe env
  let h2 :=
    if r.2.1.user.isSome && r.2.1.error.isNone then
      let userProfile := r.1.currentProfile
      (HookState.withFlags { h with profile := userProfile }
        (updateRoles userProfile))
    else h
  (h2, r)

/-- The hook's `signOut` wrapper (useAuth.ts lines 142-158): delegates
to the service; on a null error clears session, user, profile and the
flags in hook state. -/
def useAuth.signOut (h : HookState) (s : AuthServiceState)
    (pr : SignOutProviderResult) :
    HookState × AuthServiceState × Option String × List Effect :=
  let r := AuthService.signOut s pr
  let h2 :=
    match r.2.1 with
    | none =>
      (HookState.withFlags
        { h with session := none, authUser := none, profile := none }
        (updateRoles none))
    | some _ => h
  (h2, r)


/-- Concrete profile used by the witnesses, with the given role and
status and neutral filler in the remaining columns. -/
def sampleProfile (role status : String) : UserProfile :=
  { id := "u1"
    username := none
    full_name := none
    avatar_url := none
    role := role
    status := status
    email_verified := true
    last_login_at := none
    login_attempts := 0
    locked_until := none
    created_at := "2025-01-01T00:00:00Z"
    updated_at := "2025-01-01T00:00:00Z" }

/-- Concrete initialized service state caching a profile with the given
role and status. -/
def sampleState (role status : String) : AuthServiceState :=
  { currentUser := some { id := "u1", email := some "u1@example.com" }
    currentProfile := some (sampleProfile role status)
    settings := none
    initialized := true }

/-- Concrete hook state used by the witnesses. -/
def sampleHook : HookState :=
  { authUser := some { id := "u1", email := some "u1@example.com" }
    profile := some (sampleProfile "admin" "active")
    session := some { user := { id := "u1", email := some "u1@example.com" } }
    isAdmin := true
    isEditor := true
    isSuperAdmin := false }

/-- Concrete profile-load environment used by the witnesses. -/
def sampleLoadEnv : LoadProfileEnv :=
  { fetchProfile := .threw, getUserThrew := false, insertResult := .threw }

/-- Concrete init environment whose `getSession` call throws. -/
def envThrew : InitEnv :=
  { getSession := .threw, loadProfile := sampleLoadEnv, settings := .threw }

/-- Initialized service state with an empty cache. -/
def sReady : AuthServiceState :=
  { currentUser := none, currentProfile := none, settings := none,
    initialized := true }

lemma roleHierarchy_ge_three_iff (r : String) :
    3 ≤ roleHierarchy r ↔ (r = "admin" ∨ r = "super_admin") := by
  by_cases h1 : r = "super_admin"
  · subst h1; decide
  · by_cases h2 : r = "admin"
    · subst h2; decide
    · by_cases h3 : r = "editor"
      · subst h3; decide
      · by_cases h4 : r = "user"
        · subst h4; decide
        · simp [roleHierarchy, h1, h2, h3, h4]

/-- C1: for every cached profile, `hasRole('admin')` returns true iff
the profile's role is admin or super_admin and its status is active;
with no cached profile it returns false. -/
theorem hasRole_admin_iff (s : AuthServiceState) :
    AuthService.hasRole s "admin" = true ↔
      ∃ p, s.currentProfile = some p ∧
        (p.role = "admin" ∨ p.role = "super_admin") ∧ p.status = "active" := by
  unfold AuthService.hasRole
  cases hp : s.currentProfile with
  | none => simp
  | some p =>
    by_cases hs : p.status = "active"
    · have hadm : roleHierarchy "admin" = 3 := by decide
      simp [hs, hadm, ge_iff_le, roleHierarchy_ge_three_iff]
    · simp [hs]

/-- C2: with a cached profile whose status is not active, every
`hasRole` query answers false and the recomputed flag triple is all
false, regardless of the profile's role. -/
theorem inactive_profile_no_permissions (s : AuthServiceState)
    (p : UserProfile) (hp : s.currentProfile = some p)
    (hs : p.status ≠ "active") :
    (∀ r : String, AuthService.hasRole s r = false) ∧
      updateRoles (some p) =
        { isSuperAdmin := false, isAdmin := false, isEditor := false } := by
  constructor
  · intro r
    unfold AuthService.hasRole
    rw [hp]
    simp [hs]
  · unfold updateRoles
    simp [hs]

/-- Witness for C2 at the spec scenario profile
role admin, status suspended. -/
theorem inactive_profile_no_permissions_witness :
    AuthService.hasRole (sampleState "admin" "suspended") "admin" = false ∧
      updateRoles (some (sampleProfile "admin" "suspended")) =
        { isSuperAdmin := false, isAdmin := false, isEditor := false } := by
  have h := inactive_profile_no_permissions (sampleState "admin" "suspended")
    (sampleProfile "admin" "suspended") rfl (by decide)
  exact ⟨h.1 "admin", h.2⟩

/-- C3: `hasRole` is monotone along the hierarchy levels: whatever the
cached state, if the requested role `R'` is at or below `R` and
`hasRole R` holds, then `hasRole R'` holds. -/
theorem hasRole_monotone (s : AuthServiceState) (R R' : String)
    (hord : roleHierarchy R' ≤ roleHierarchy R)
    (h : AuthService.hasRole s R = true) :
    AuthService.hasRole s R' = true := by
  unfold AuthService.hasRole at h ⊢
  cases hp : s.currentProfile with
  | none => rw [hp] at h; simp at h
  | some p =>
    rw [hp] at h
    by_cases hs : p.status = "active"
    · simp [hs, ge_iff_le] at h ⊢
      omega
    · simp [hs] at h

/-- Witness for C3: an active admin passes the editor check. -/
theorem hasRole_monotone_witness :
    AuthService.hasRole (sampleState "admin" "active") "editor" = true :=
  hasRole_monotone (sampleState "admin" "active") "admin" "editor"
    (by decide) (by decide)

lemma roleHierarchy_eq_zero_of_unknown (r : String)
    (h : r ∉ ["super_admin", "admin", "editor", "user"]) :
    roleHierarchy r = 0 := by
  simp only [List.mem_cons, List.not_mem_nil, or_false, not_or] at h
  obtain ⟨h1, h2, h3, h4⟩ := h
  simp [roleHierarchy, h1, h2, h3, h4]

lemma roleHierarchy_pos_of_valid (r : String)
    (h : r ∈ ["super_admin", "admin", "editor", "user"]) :
    1 ≤ roleHierarchy r := by
  simp only [List.mem_cons, List.not_mem_nil, or_false] at h
  rcases h with h | h | h | h <;> subst h <;> decide

/-- C10: for a role-name string outside the four known roles, the
`|| 0` lookup default makes the required level 0, so `hasRole` answers
true for every active cached profile holding one of the four valid
roles. -/
theorem hasRole_unknown_role_true (s : AuthServiceState) (p : UserProfile)
    (r : String) (hp : s.currentProfile = some p)
    (hs : p.status = "active")
    (hrole : p.role ∈ ["super_admin", "admin", "editor", "user"])
    (hr : r ∉ ["super_admin", "admin", "editor", "user"]) :
    AuthService.hasRole s r = true := by
  unfold AuthService.hasRole
  rw [hp]
  simp only [hs, ne_eq, not_true_eq_false, if_false, ge_iff_le,
    decide_eq_true_eq]
  have h0 := roleHierarchy_eq_zero_of_unknown r hr
  have h1 := roleHierarchy_pos_of_valid p.role hrole
  omega

/-- Witness for C10: an active plain user satisfies the role check for
the unknown role name moderator. -/
theorem hasRole_unknown_role_true_witness :
    AuthService.hasRole (sampleState "user" "active") "moderator" = true :=
  hasRole_unknown_role_true (sampleState "user" "active")
    (sampleProfile "user" "active") "moderator" rfl rfl
    (by decide) (by decide)

/-- C4: for an active profile the derived flags are exactly the
role-membership tests of the spec, and the flags depend only on the
role and status columns. -/
theorem updateRoles_active (p : UserProfile) (hs : p.status = "active") :
    ((updateRoles (some p)).isSuperAdmin = true ↔ p.role = "super_admin") ∧
    ((updateRoles (some p)).isAdmin = true ↔
      (p.role = "super_admin" ∨ p.role = "admin")) ∧
    ((updateRoles (some p)).isEditor = true ↔
      (p.role = "super_admin" ∨ p.role = "admin" ∨ p.role = "editor")) ∧
    (∀ q : UserProfile, q.role = p.role → q.status = p.status →
      updateRoles (some q) = updateRoles (some p)) := by
  refine ⟨?_, ?_, ?_, ?_⟩
  · unfold updateRoles; simp [hs]
  · unfold updateRoles; simp [hs]
  · unfold updateRoles; simp [hs]
  · intro q hqr hqs
    simp only [updateRoles, hqr, hqs]

/-- Witness for C4 at the spec scenario profile role editor,
status active: isEditor true, isAdmin false, isSuperAdmin false. -/
theorem updateRoles_active_witness :
    (updateRoles (some (sampleProfile "editor" "active"))).isEditor = true ∧
    (updateRoles (some (sampleProfile "editor" "active"))).isAdmin = false ∧
    (updateRoles (some (sampleProfile "editor" "active"))).isSuperAdmin
      = false := by
  have h := updateRoles_active (sampleProfile "editor" "active") rfl
  refine ⟨h.2.2.1.mpr (Or.inr (Or.inr rfl)), ?_, ?_⟩ <;> decide

/-- C5: whenever the hook's `signOut` resolves with a null error, the
hook state holds no session, user or profile, all three flags are
false, and the service cache holds no user or profile. -/
theorem signOut_success_resets (h : HookState) (s : AuthServiceState)
    (pr : SignOutProviderResult)
    (hok : (useAuth.signOut h s pr).2.2.1 = none) :
    (useAuth.signOut h s pr).1.authUser = none ∧
    (useAuth.signOut h s pr).1.profile = none ∧
    (useAuth.signOut h s pr).1.session = none ∧
    (useAuth.signOut h s pr).1.isAdmin = false ∧
    (useAuth.signOut h s pr).1.isEditor = false ∧
    (useAuth.signOut h s pr).1.isSuperAdmin = false ∧
    (useAuth.signOut h s pr).2.1.currentUser = none ∧
    (useAuth.signOut h s pr).2.1.currentProfile = none := by
  match pr with
  | .ok none =>
    simp [useAuth.signOut, AuthService.signOut, HookState.withFlags,
      updateRoles]
  | .ok (some e) =>
    simp [useAuth.signOut, AuthService.signOut] at hok
  | .threw m =>
    simp [useAuth.signOut, AuthService.signOut] at hok

/-- Witness for C5: a concrete signed-in hook/service state and a
provider that reports no error. -/
theorem signOut_success_resets_witness :
    (useAuth.signOut sampleHook (sampleState "admin" "active")
      (.ok none)).1.profile = none ∧
    (useAuth.signOut sampleHook (sampleState "admin" "active")
      (.ok none)).2.1.currentProfile = none := by
  have h := signOut_success_resets sampleHook (sampleState "admin" "active")
    (.ok none) (by decide)
  exact ⟨h.2.1, h.2.2.2.2.2.2.2⟩

/-- C6: when the provider answers `signInWithPassword` with an error,
the service's `signIn` returns that error with a null user and leaves
the whole cached service state unchanged, and the hook's `signIn`
wrapper returns the same error and leaves the hook state unchanged.
Both wrappers are total functions of their inputs: every input
produces a `{ user, session, error }` triple rather than a thrown
exception. -/
theorem signIn_provider_error (h : HookState) (s : AuthServiceState)
    (email password : String) (rememberMe : Bool) (msg : String)
    (lp : LoadProfileEnv) :
    (AuthService.signIn s email password rememberMe
      { provider := .err msg, loadProfile := lp }).2.1.error = some msg ∧
    (AuthService.signIn s email password rememberMe
      { provider := .err msg, loadProfile := lp }).2.1.user = none ∧
    (AuthService.signIn s email password rememberMe
      { provider := .err msg, loadProfile := lp }).1 = s ∧
    (useAuth.signIn h s email password rememberMe
      { provider := .err msg, loadProfile := lp }).1 = h ∧
    (useAuth.signIn h s email password rememberMe
      { provider := .err msg, loadProfile := lp }).2.2.1.error = some msg := by
  simp [AuthService.signIn, useAuth.signIn]

/-- C7: `initialize()` (embedded as `initService`) is idempotent and
never throws: every call completes with the initialized mark set; a
call on an already-initialized service is a no-op with no remote
calls; and a first call whose session fetch throws is caught, issuing
only the session fetch and leaving the cache empty. -/
theorem initService_idempotent :
    (∀ (s : AuthServiceState) (env : InitEnv),
      (AuthService.initService s env).1.initialized = true) ∧
    (∀ (s : AuthServiceState) (env : InitEnv), s.initialized = true →
      AuthService.initService s env = (s, [])) ∧
    (∀ env : InitEnv, env.getSession = .threw →
      AuthService.initService AuthService.initState env =
        ({ AuthService.initState with initialized := true },
          [Effect.getSession])) := by
  refine ⟨?_, ?_, ?_⟩
  · intro s env
    unfold AuthService.initService
    by_cases hi : s.initialized
    · simp [hi]
    · simp only [hi, if_false, Bool.false_eq_true]
      cases hgs : env.getSession with
      | threw => simp
      | ok sess err =>
        cases sess with
        | none =>
          unfold AuthService.loadSystemSettings
          cases env.settings <;> simp
        | some session =>
          unfold AuthService.loadSystemSettings
          cases env.settings <;> simp
  · intro s env hinit
    unfold AuthService.initService
    simp [hinit]
  · intro env hgs
    unfold AuthService.initService
    simp [AuthService.initState, hgs]

/-- Witness for C7: a second call on an initialized service is a no-op
and a first call with a thrown session fetch still initializes with an
empty cache. -/
theorem initService_idempotent_witness :
    AuthService.initService sReady envThrew = (sReady, []) ∧
    AuthService.initService AuthService.initState envThrew =
      ({ AuthService.initState with initialized := true },
        [Effect.getSession]) :=
  ⟨initService_idempotent.2.1 sReady envThrew rfl,
   initService_idempotent.2.2 envThrew rfl⟩

/-- C8: each guard renders the loading placeholder while initializing,
and once initializing is false renders its children exactly when its
flag combination holds, otherwise redirecting to its fixed fallback. -/
theorem routeGuards_spec :
    (∀ a e sa : Bool,
      ProtectedRoute true a e = .loadingView ∧
      AdminOnlyRoute true a sa = .loadingView ∧
      SuperAdminOnlyRoute true sa = .loadingView) ∧
    (∀ a e : Bool, ProtectedRoute false a e =
      (if a || e then .children else .redirect "/admin/login")) ∧
    (∀ a sa : Bool, AdminOnlyRoute false a sa =
      (if a || sa then .children else .redirect "/admin")) ∧
    (∀ sa : Bool, SuperAdminOnlyRoute false sa =
      (if sa then .children else .redirect "/admin")) := by
  refine ⟨?_, ?_, ?_, ?_⟩ <;> decide

/-- C9: `createUser` with a caller whose cached profile fails the
admin check returns a permission error with a null user, issues no
remote call at all, and leaves the service state unchanged. -/
theorem createUser_requires_admin (s : AuthServiceState)
    (email password fullName role : String) (env : AdminCreateResult)
    (h : AuthService.hasRole s "admin" = false) :
    (AuthService.createUser s email password fullName role env).2.1.user
      = none ∧
    (AuthService.createUser s email password fullName role env).2.1.error
      = some "Permissions insuffisantes" ∧
    (AuthService.createUser s email password fullName role env).2.2 = [] ∧
    (AuthService.createUser s email password fullName role env).1 = s := by
  unfold AuthService.createUser
  simp [h]

/-- Witness for C9: an active editor (below admin) is rejected with no
remote call. -/
theorem createUser_requires_admin_witness :
    (AuthService.createUser (sampleState "editor" "active")
      "new@example.com" "pw" "New User" "user" (.ok none)).2.1.error
      = some "Permissions insuffisantes" ∧
    (AuthService.createUser (sampleState "editor" "active")
      "new@example.com" "pw" "New User" "user" (.ok none)).2.2 = [] := by
  have h := createUser_requires_admin (sampleState "editor" "active")
    "new@example.com" "pw" "New User" "user" (.ok none) (by decide)
  exact ⟨h.2.1, h.2.2.1⟩
